import Mathlib

/-!
Shallow embedding of the `lume_model` package (files `lume_model/variables.py`
and `lume_model/utils.py`).

Python values appearing in configuration documents and in variable fields are
modelled by the inductive `PyVal`; numpy arrays by `NpArr` (a shape together
with the flattened data).  Python `dict`s are modelled as insertion-ordered
association lists.  Fatal outcomes (`sys.exit()`, uncaught exceptions,
pydantic `ValidationError`s) are modelled with `Except`.
-/

namespace LumeModel

/-- A numpy ndarray: its shape and its (flattened, row-major) entries.
`np.load` of an external array file is modelled as an oracle producing such
an array. -/
structure NpArr where
  shape : List Nat
  data : List Rat
deriving DecidableEq, Repr

/-- `ndarray.ndim` is the length of the shape. -/
def NpArr.ndim (a : NpArr) : Nat := a.shape.length

/-- `np.amin` over the flattened data; `none` models the exception numpy
raises on an empty array. -/
def NpArr.amin (a : NpArr) : Option Rat := a.data.min?

/-- `np.amax` over the flattened data; `none` models the exception numpy
raises on an empty array. -/
def NpArr.amax (a : NpArr) : Option Rat := a.data.max?

/-- Python values as they occur in parsed yaml documents and keyword
arguments: `None`, booleans, numbers (ints and floats, modelled as rationals),
strings, lists, string-keyed dicts (insertion-ordered association lists), and
numpy arrays. -/
inductive PyVal where
  | none : PyVal
  | bool (b : Bool) : PyVal
  | num (q : Rat) : PyVal
  | str (s : String) : PyVal
  | list (l : List PyVal) : PyVal
  | dict (d : List (String × PyVal)) : PyVal
  | arr (a : NpArr) : PyVal
deriving Repr

/-- Lookup of `record[key]` in a Python dict modelled as an association
list (first binding wins, as Python keys are unique). -/
def getKey (d : List (String × PyVal)) (k : String) : Option PyVal :=
  match d with
  | [] => Option.none
  | (k', v) :: rest => if k' = k then some v else getKey rest k

/-- `dict.__setitem__`: replace the binding for `k` when present (keeping its
position, as Python does), otherwise append it. -/
def setKey (d : List (String × PyVal)) (k : String) (v : PyVal) : List (String × PyVal) :=
  match d with
  | [] => [(k, v)]
  | (k', v') :: rest => if k' = k then (k, v) :: rest else (k', v') :: setKey rest k v

/-!
## The variable data model (`lume_model/variables.py`)

Pydantic v1 collects fields only from bases that are themselves pydantic
models.  `ScalarVariable` is a plain class (it does not inherit `BaseModel`),
so `ScalarInputVariable`/`ScalarOutputVariable` carry exactly the fields of
`Variable` + `InputVariable`/`OutputVariable`: `name`, `value`, `precision`,
`default`, `value_range`.  `ImageVariable` does inherit `BaseModel`, so the
image concrete types additionally carry all its declared fields.
-/

structure ScalarInputVariable where
  name : String
  value : Option Rat := Option.none
  precision : Option Int := some 8
  default : Rat
  value_range : List PyVal
deriving Repr

structure ScalarOutputVariable where
  name : String
  value : Option Rat := Option.none
  precision : Option Int := some 8
  default : Option Rat := Option.none
  value_range : Option (List PyVal) := Option.none
deriving Repr

structure ImageInputVariable where
  name : String
  value : Option NpArr := Option.none
  precision : Option Int := some 8
  default : NpArr
  value_range : List PyVal
  variable_type : String := "image"
  axis_labels : List String
  shape : List PyVal
  axis_units : Option (List String) := Option.none
  x_min : Option Rat := Option.none
  x_max : Option Rat := Option.none
  y_min : Option Rat := Option.none
  y_max : Option Rat := Option.none
  x_min_variable : Option String := Option.none
  x_max_variable : Option String := Option.none
  y_min_variable : Option String := Option.none
  y_max_variable : Option String := Option.none
deriving Repr

structure ImageOutputVariable where
  name : String
  value : Option NpArr := Option.none
  precision : Option Int := some 8
  default : Option NpArr := Option.none
  value_range : Option (List PyVal) := Option.none
  variable_type : String := "image"
  axis_labels : List String
  shape : List PyVal
  axis_units : Option (List String) := Option.none
  x_min : Option Rat := Option.none
  x_max : Option Rat := Option.none
  y_min : Option Rat := Option.none
  y_max : Option Rat := Option.none
  x_min_variable : Option String := Option.none
  x_max_variable : Option String := Option.none
  y_min_variable : Option String := Option.none
  y_max_variable : Option String := Option.none
deriving Repr

/-!
### Pydantic construction (`ConcreteVariable(**kwargs)`)

Keyword arguments are a Python dict `List (String × PyVal)`.  Pydantic v1
populates a field from its alias first and, because the model config sets
`allow_population_by_field_name`, falls back to the field's own name; extra
keyword arguments (such as the `type` discriminator or `is_constant`) are
ignored.  A missing required field or an ill-typed value raises a
`ValidationError`; we report the first offending field.
-/

/-- A pydantic `ValidationError`, identified by the offending field. -/
inductive VErr where
  | missing (field : String) : VErr
  | wrongType (field : String) : VErr
deriving DecidableEq, Repr

/-- Field population: try the alias, then the field name
(`allow_population_by_field_name`). -/
def popField (kwargs : List (String × PyVal)) (aliasKey fieldName : String) : Option PyVal :=
  match getKey kwargs aliasKey with
  | some v => some v
  | Option.none => getKey kwargs fieldName

/-- `str` field validation (the claims never exercise pydantic's
number-to-string coercion, so non-strings are rejected). -/
def vStr (f : String) : PyVal → Except VErr String
  | .str s => .ok s
  | _ => .error (.wrongType f)

/-- `float` field validation: numbers (and bools, which Python treats as
ints) are accepted, anything else — in particular a numpy array, as the
tests require — is rejected. -/
def vFloat (f : String) : PyVal → Except VErr Rat
  | .num q => .ok q
  | .bool b => .ok (if b then 1 else 0)
  | _ => .error (.wrongType f)

/-- `int` field validation; `int()` truncates a float toward zero. -/
def vInt (f : String) : PyVal → Except VErr Int
  | .num q => .ok (if 0 ≤ q then ⌊q⌋ else ⌈q⌉)
  | .bool b => .ok (if b then 1 else 0)
  | _ => .error (.wrongType f)

/-- Bare `list` field validation: any list, elements unvalidated
(`value_range: list`). -/
def vList (f : String) : PyVal → Except VErr (List PyVal)
  | .list l => .ok l
  | _ => .error (.wrongType f)

/-- `List[str]` field validation. -/
def vStrList (f : String) : PyVal → Except VErr (List String)
  | .list l => l.mapM (vStr f)
  | _ => .error (.wrongType f)

/-- Bare `tuple` field validation: pydantic coerces any sequence; the yaml
pipeline supplies lists, stored as given (`shape: tuple`). -/
def vTuple (f : String) : PyVal → Except VErr (List PyVal)
  | .list l => .ok l
  | _ => .error (.wrongType f)

/-- `Image.validate`: the value must be a numpy array (else `TypeError`)
of exactly 2 dimensions (else `ValueError`); the `shape` field is never
consulted. -/
def vImage (f : String) : PyVal → Except VErr NpArr
  | .arr a => if a.ndim = 2 then .ok a else .error (.wrongType f)
  | _ => .error (.wrongType f)

/-- A required field: absent is a `ValidationError`. -/
def reqField (kwargs : List (String × PyVal)) (aliasKey fieldName : String)
    (val : PyVal → Except VErr α) : Except VErr α :=
  match popField kwargs aliasKey fieldName with
  | some v => val v
  | Option.none => .error (.missing fieldName)

/-- An `Optional` field defaulting to `None`: absent or explicit `None`
yields `none`. -/
def optField (kwargs : List (String × PyVal)) (aliasKey fieldName : String)
    (val : PyVal → Except VErr α) : Except VErr (Option α) :=
  match popField kwargs aliasKey fieldName with
  | some PyVal.none => .ok Option.none
  | some v => (val v).map some
  | Option.none => .ok Option.none

/-- The `precision: Optional[int] = 8` field. -/
def precisionField (kwargs : List (String × PyVal)) : Except VErr (Option Int) :=
  match popField kwargs "precision" "precision" with
  | some PyVal.none => .ok Option.none
  | some v => (vInt "precision" v).map some
  | Option.none => .ok (some 8)

/-- The `variable_type: str = "image"` field of `ImageVariable`. -/
def varTypeField (kwargs : List (String × PyVal)) : Except VErr String :=
  match popField kwargs "variable_type" "variable_type" with
  | some v => vStr "variable_type" v
  | Option.none => .ok "image"

def ScalarInputVariable.construct (kwargs : List (String × PyVal)) :
    Except VErr ScalarInputVariable := do
  let name ← reqField kwargs "name" "name" (vStr "name")
  let value ← optField kwargs "value" "value" (vFloat "value")
  let precision ← precisionField kwargs
  let default ← reqField kwargs "default" "default" (vFloat "default")
  let value_range ← reqField kwargs "range" "value_range" (vList "value_range")
  return { name, value, precision, default, value_range }

def ScalarOutputVariable.construct (kwargs : List (String × PyVal)) :
    Except VErr ScalarOutputVariable := do
  let name ← reqField kwargs "name" "name" (vStr "name")
  let value ← optField kwargs "value" "value" (vFloat "value")
  let precision ← precisionField kwargs
  let default ← optField kwargs "default" "default" (vFloat "default")
  let value_range ← optField kwargs "range" "value_range" (vList "value_range")
  return { name, value, precision, default, value_range }

def ImageInputVariable.construct (kwargs : List (String × PyVal)) :
    Except VErr ImageInputVariable := do
  let name ← reqField kwargs "name" "name" (vStr "name")
  let value ← optField kwargs "value" "value" (vImage "value")
  let precision ← precisionField kwargs
  let default ← reqField kwargs "default" "default" (vImage "default")
  let value_range ← reqField kwargs "range" "value_range" (vList "value_range")
  let variable_type ← varTypeField kwargs
  let axis_labels ← reqField kwargs "axis_labels" "axis_labels" (vStrList "axis_labels")
  let shape ← reqField kwargs "shape" "shape" (vTuple "shape")
  let axis_units ← optField kwargs "axis_units" "axis_units" (vStrList "axis_units")
  let x_min ← optField kwargs "x_min" "x_min" (vFloat "x_min")
  let x_max ← optField kwargs "x_max" "x_max" (vFloat "x_max")
  let y_min ← optField kwargs "y_min" "y_min" (vFloat "y_min")
  let y_max ← optField kwargs "y_max" "y_max" (vFloat "y_max")
  let x_min_variable ← optField kwargs "x_min_variable" "x_min_variable" (vStr "x_min_variable")
  let x_max_variable ← optField kwargs "x_max_variable" "x_max_variable" (vStr "x_max_variable")
  let y_min_variable ← optField kwargs "y_min_variable" "y_min_variable" (vStr "y_min_variable")
  let y_max_variable ← optField kwargs "y_max_variable" "y_max_variable" (vStr "y_max_variable")
  return { name, value, precision, default, value_range, variable_type, axis_labels,
           shape, axis_units, x_min, x_max, y_min, y_max,
           x_min_variable, x_max_variable, y_min_variable, y_max_variable }

def ImageOutputVariable.construct (kwargs : List (String × PyVal)) :
    Except VErr ImageOutputVariable := do
  let name ← reqField kwargs "name" "name" (vStr "name")
  let value ← optField kwargs "value" "value" (vImage "value")
  let precision ← precisionField kwargs
  let default ← optField kwargs "default" "default" (vImage "default")
  let value_range ← optField kwargs "range" "value_range" (vList "value_range")
  let variable_type ← varTypeField kwargs
  let axis_labels ← reqField kwargs "axis_labels" "axis_labels" (vStrList "axis_labels")
  let shape ← reqField kwargs "shape" "shape" (vTuple "shape")
  let axis_units ← optField kwargs "axis_units" "axis_units" (vStrList "axis_units")
  let x_min ← optField kwargs "x_min" "x_min" (vFloat "x_min")
  let x_max ← optField kwargs "x_max" "x_max" (vFloat "x_max")
  let y_min ← optField kwargs "y_min" "y_min" (vFloat "y_min")
  let y_max ← optField kwargs "y_max" "y_max" (vFloat "y_max")
  let x_min_variable ← optField kwargs "x_min_variable" "x_min_variable" (vStr "x_min_variable")
  let x_max_variable ← optField kwargs "x_max_variable" "x_max_variable" (vStr "x_max_variable")
  let y_min_variable ← optField kwargs "y_min_variable" "y_min_variable" (vStr "y_min_variable")
  let y_max_variable ← optField kwargs "y_max_variable" "y_max_variable" (vStr "y_max_variable")
  return { name, value, precision, default, value_range, variable_type, axis_labels,
           shape, axis_units, x_min, x_max, y_min, y_max,
           x_min_variable, x_max_variable, y_min_variable, y_max_variable }

/-- A value of any of the four concrete variable classes (the payload of the
persistence layer). -/
inductive LVar where
  | scalarIn (v : ScalarInputVariable) : LVar
  | scalarOut (v : ScalarOutputVariable) : LVar
  | imageIn (v : ImageInputVariable) : LVar
  | imageOut (v : ImageOutputVariable) : LVar
deriving Repr

/-- The `.name` attribute common to all variables. -/
def LVar.name : LVar → String
  | .scalarIn v => v.name
  | .scalarOut v => v.name
  | .imageIn v => v.name
  | .imageOut v => v.name

abbrev VarDict := List (String × LVar)

/-!
## Persistence layer (`save_variables` / `load_variables`)

`save_variables` collects the `.name` attribute of every variable in both
mappings, raises a bare `ValueError` (carrying no argument, hence naming no
keys) as soon as some name occurs more than once, and otherwise pickles the
two mappings as `{"input_variables": ..., "output_variables": ...}`.
The pickle blob is modelled as the stored pair itself; `Except.error` means
the exception was raised before the destination file was opened, so nothing
was written.
-/

/-- The error raised by `save_variables`.  `namedKeys` is the list of
duplicate keys the raised exception names; the source raises `ValueError`
with no arguments, so it is always empty. -/
structure SaveErr where
  namedKeys : List String
deriving DecidableEq, Repr

/-- The pickled blob: the dict `{"input_variables": ..., "output_variables": ...}`. -/
structure Blob where
  input_variables : VarDict
  output_variables : VarDict
deriving Repr

def save_variables (input_variables output_variables : VarDict) :
    Except SaveErr Blob :=
  let variable_names :=
    input_variables.map (fun p => (p.2).name) ++ output_variables.map (fun p => (p.2).name)
  if variable_names.dedup.any (fun v => 1 < variable_names.count v) then
    Except.error { namedKeys := [] }
  else
    Except.ok { input_variables := input_variables, output_variables := output_variables }

def load_variables (blob : Blob) : VarDict × VarDict :=
  (blob.input_variables, blob.output_variables)

/-!
## Serialized dictionary view (`PropertyBaseModel.dict`)

`dict()` returns the pydantic-declared fields and then adds every `property`
attribute of the class.  None of the four concrete classes declares a
`property`, so the view is exactly the declared fields.  Because
`ScalarVariable` is not a pydantic model, the scalar trait names
(`variable_type`, `units`, `parent_variable`) are not declared fields of the
scalar concrete types and do not appear.
-/

def pyOfOpt (f : α → PyVal) : Option α → PyVal
  | Option.none => PyVal.none
  | some x => f x

def ScalarInputVariable.dictView (v : ScalarInputVariable) : List (String × PyVal) :=
  [("name", .str v.name),
   ("value", pyOfOpt .num v.value),
   ("precision", pyOfOpt (fun i => .num (i : Rat)) v.precision),
   ("default", .num v.default),
   ("value_range", .list v.value_range)]

def ScalarOutputVariable.dictView (v : ScalarOutputVariable) : List (String × PyVal) :=
  [("name", .str v.name),
   ("value", pyOfOpt .num v.value),
   ("precision", pyOfOpt (fun i => .num (i : Rat)) v.precision),
   ("default", pyOfOpt .num v.default),
   ("value_range", pyOfOpt .list v.value_range)]

def ImageInputVariable.dictView (v : ImageInputVariable) : List (String × PyVal) :=
  [("name", .str v.name),
   ("value", pyOfOpt .arr v.value),
   ("precision", pyOfOpt (fun i => .num (i : Rat)) v.precision),
   ("default", .arr v.default),
   ("value_range", .list v.value_range),
   ("variable_type", .str v.variable_type),
   ("axis_labels", .list (v.axis_labels.map .str)),
   ("shape", .list v.shape),
   ("axis_units", pyOfOpt (fun l => .list (l.map .str)) v.axis_units),
   ("x_min", pyOfOpt .num v.x_min),
   ("x_max", pyOfOpt .num v.x_max),
   ("y_min", pyOfOpt .num v.y_min),
   ("y_max", pyOfOpt .num v.y_max),
   ("x_min_variable", pyOfOpt .str v.x_min_variable),
   ("x_max_variable", pyOfOpt .str v.x_max_variable),
   ("y_min_variable", pyOfOpt .str v.y_min_variable),
   ("y_max_variable", pyOfOpt .str v.y_max_variable)]

def ImageOutputVariable.dictView (v : ImageOutputVariable) : List (String × PyVal) :=
  [("name", .str v.name),
   ("value", pyOfOpt .arr v.value),
   ("precision", pyOfOpt (fun i => .num (i : Rat)) v.precision),
   ("default", pyOfOpt .arr v.default),
   ("value_range", pyOfOpt .list v.value_range),
   ("variable_type", .str v.variable_type),
   ("axis_labels", .list (v.axis_labels.map .str)),
   ("shape", .list v.shape),
   ("axis_units", pyOfOpt (fun l => .list (l.map .str)) v.axis_units),
   ("x_min", pyOfOpt .num v.x_min),
   ("x_max", pyOfOpt .num v.x_max),
   ("y_min", pyOfOpt .num v.y_min),
   ("y_max", pyOfOpt .num v.y_max),
   ("x_min_variable", pyOfOpt .str v.x_min_variable),
   ("x_max_variable", pyOfOpt .str v.x_max_variable),
   ("y_min_variable", pyOfOpt .str v.y_min_variable),
   ("y_max_variable", pyOfOpt .str v.y_max_variable)]

/-- The keys named by the exception a failed save raised (empty when the
save succeeded). -/
def reportedKeys : Except SaveErr Blob → List String
  | .error e => e.namedKeys
  | .ok _ => []

/-- The list of `.name` attributes `save_variables` builds. -/
def varNames (input_variables output_variables : VarDict) : List String :=
  input_variables.map (fun p => (p.2).name) ++ output_variables.map (fun p => (p.2).name)

/-!
## Config loader (`variables_from_yaml` / `model_from_yaml`)

The configuration document is the result of `yaml.safe_load`, a `PyVal`.
External effects are oracles collected in `Env`: `np.load` of an array file,
`__import__` of a requirement, `locate` of a dotted path, and model
construction.  `Err` covers the fatal outcomes: `sys.exit()` (`exit`),
a pydantic `ValidationError` propagating out (`validation`), a `KeyError`
from indexing a record (`keyError`), and every other uncaught exception
(`uncaught`: a failing `np.load`, a failing import or dotted-path lookup,
numpy reductions over empty arrays, multi-element array truthiness,
iterating a non-dict section).
-/

/-- An imported Python module; `version` is its `version` attribute
(`none` models the `AttributeError` raised when it is absent). -/
structure PyModule where
  version : Option PyVal
deriving Repr

/-- A class object obtained by dotted-path lookup, identified by the path
that resolved to it. -/
structure ClassRef where
  path : String
deriving DecidableEq, Repr

/-- A value of the heterogeneous `model_kwargs` dict: the two variable
mappings, the resolved `custom_layers` mapping, or a plain yaml value
merged in from `model.kwargs`. -/
inductive KwVal where
  | vars (d : VarDict) : KwVal
  | layers (d : List (String × ClassRef)) : KwVal
  | py (v : PyVal) : KwVal
deriving Repr

abbrev ModelKwargs := List (String × KwVal)

/-- `model_kwargs[k] = v` (overwrite in place or append). -/
def setKw (d : ModelKwargs) (k : String) (v : KwVal) : ModelKwargs :=
  match d with
  | [] => [(k, v)]
  | (k', v') :: rest => if k' = k then (k, v) :: rest else (k', v') :: setKw rest k v

/-- `del kwargs[k]`. -/
def delKey (d : List (String × PyVal)) (k : String) : List (String × PyVal) :=
  d.filter (fun p => p.1 != k)

/-- An instantiated model: the resolved class applied to the keyword
arguments. -/
structure ModelInstance where
  cls : ClassRef
  kwargs : ModelKwargs
deriving Repr

/-- What `model_from_yaml` returns: a model instance (`load_model=True`) or
the `(model_class, model_kwargs)` pair (`load_model=False`). -/
inductive MResult where
  | model (m : ModelInstance) : MResult
  | deferred (cls : ClassRef) (kwargs : ModelKwargs) : MResult
deriving Repr

/-- The running environment reached by the loader's external effects. -/
structure Env where
  /-- `np.load path`; `none` models the exception raised when the file is
  absent or unreadable. -/
  npLoad : String → Option NpArr
  /-- `__import__ name`; `none` models `ImportError`. -/
  importModule : String → Option PyModule
  /-- the module's `locate` helper on a dotted path; `none` models the
  exception it raises when a component is missing (it never returns `None`). -/
  locate : String → Option ClassRef
  /-- whether `model_class(**model_kwargs)` raises. -/
  constructOk : ClassRef → ModelKwargs → Bool

/-- Fatal outcomes of the loaders. -/
inductive Err where
  | exit : Err
  | validation (e : VErr) : Err
  | keyError (k : String) : Err
  | uncaught : Err
deriving DecidableEq, Repr

/-- Python truthiness; `none` models the `ValueError` raised when a
multi-element numpy array is used in boolean context. -/
def pyTruthy : PyVal → Option Bool
  | .none => some false
  | .bool b => some b
  | .num q => some (decide (q ≠ 0))
  | .str s => some (decide (s ≠ ""))
  | .list l => some (!l.isEmpty)
  | .dict d => some (!d.isEmpty)
  | .arr a =>
    match a.data with
    | [] => some false
    | [x] => some (decide (x ≠ 0))
    | _ => Option.none

mutual
/-- Python `==` on yaml values (dicts compared entrywise in order; the only
use is the requirements version check, which compares a version attribute
against a dict). -/
def pyBeq : PyVal → PyVal → Bool
  | .none, .none => true
  | .bool a, .bool b => a == b
  | .num a, .num b => a == b
  | .str a, .str b => a == b
  | .list a, .list b => pyBeqList a b
  | .dict a, .dict b => pyBeqDict a b
  | .arr a, .arr b => decide (a = b)
  | _, _ => false

def pyBeqList : List PyVal → List PyVal → Bool
  | [], [] => true
  | x :: xs, y :: ys => pyBeq x y && pyBeqList xs ys
  | _, _ => false

def pyBeqDict : List (String × PyVal) → List (String × PyVal) → Bool
  | [], [] => true
  | (k1, v1) :: xs, (k2, v2) :: ys => k1 == k2 && pyBeq v1 v2 && pyBeqDict xs ys
  | _, _ => false
end

/-- `record[k]`: `KeyError` when absent. -/
def requireKey (record : List (String × PyVal)) (k : String) : Except Err PyVal :=
  match getKey record k with
  | some v => .ok v
  | Option.none => .error (.keyError k)

/-- Python `==` between a yaml value and a string literal (false on
non-strings), as in `variable_config["type"] == "scalar"`. -/
def pyStrEq (v : PyVal) (s : String) : Bool :=
  match v with
  | .str t => t = s
  | _ => false

/-- Lift a pydantic failure into the loader's error type. -/
def liftV : Except VErr α → Except Err α
  | .ok v => .ok v
  | .error e => .error (.validation e)

/-- The scalar-input branch of `variables_from_yaml`: an `is_constant`
record first collapses `range` to `[default, default]`, then the variable is
constructed from the (updated) record. -/
def scalarInputRecordV (record : List (String × PyVal)) :
    Except Err ScalarInputVariable := do
  let record ←
    match getKey record "is_constant" with
    | Option.none => pure record
    | some cv =>
      match pyTruthy cv with
      | Option.none => throw Err.uncaught
      | some true => do
        let d ← requireKey record "default"
        pure (setKey record "range" (.list [d, d]))
      | some false => pure record
  liftV (ScalarInputVariable.construct record)

/-- The image-input branch of `variables_from_yaml`: `default` is replaced
by the eagerly loaded array, `axis_labels` is synthesized from
`x_label`/`y_label`, an `is_constant` record collapses `range` to
`[amin(default), amax(default)]`, then the variable is constructed. -/
def imageInputRecordV (env : Env) (record : List (String × PyVal)) :
    Except Err ImageInputVariable := do
  let d ← requireKey record "default"
  let arr ←
    match d with
    | .str path =>
      match env.npLoad path with
      | some a => pure a
      | Option.none => throw Err.uncaught
    | _ => throw Err.uncaught
  let record := setKey record "default" (.arr arr)
  let xl ← requireKey record "x_label"
  let yl ← requireKey record "y_label"
  let record := setKey record "axis_labels" (.list [xl, yl])
  let record ←
    match getKey record "is_constant" with
    | Option.none => pure record
    | some cv =>
      match pyTruthy cv with
      | Option.none => throw Err.uncaught
      | some true =>
        match arr.amin, arr.amax with
        | some lo, some hi => pure (setKey record "range" (.list [.num lo, .num hi]))
        | _, _ => throw Err.uncaught
      | some false => pure record
  liftV (ImageInputVariable.construct record)

/-- The image-input branch of `model_from_yaml`: as above but with no
`is_constant` handling. -/
def imageInputRecordM (env : Env) (record : List (String × PyVal)) :
    Except Err ImageInputVariable := do
  let d ← requireKey record "default"
  let arr ←
    match d with
    | .str path =>
      match env.npLoad path with
      | some a => pure a
      | Option.none => throw Err.uncaught
    | _ => throw Err.uncaught
  let record := setKey record "default" (.arr arr)
  let xl ← requireKey record "x_label"
  let yl ← requireKey record "y_label"
  let record := setKey record "axis_labels" (.list [xl, yl])
  liftV (ImageInputVariable.construct record)

/-- One entry of the `input_variables` section of `variables_from_yaml`:
dispatch on the `type` discriminator; an unsupported discriminator is
`sys.exit()`. -/
def inputEntryV (env : Env) (entry : String × PyVal) :
    Except Err (String × LVar) := do
  let record ←
    match entry.2 with
    | .dict r => pure r
    | _ => throw Err.uncaught
  let tv ← requireKey record "type"
  if pyStrEq tv "scalar" then do
    let v ← scalarInputRecordV record
    pure (entry.1, LVar.scalarIn v)
  else if pyStrEq tv "image" then do
    let v ← imageInputRecordV env record
    pure (entry.1, LVar.imageIn v)
  else throw Err.exit

/-- One entry of the `input_variables` section of `model_from_yaml`
(no `is_constant` handling). -/
def inputEntryM (env : Env) (entry : String × PyVal) :
    Except Err (String × LVar) := do
  let record ←
    match entry.2 with
    | .dict r => pure r
    | _ => throw Err.uncaught
  let tv ← requireKey record "type"
  if pyStrEq tv "scalar" then do
    let v ← liftV (ScalarInputVariable.construct record)
    pure (entry.1, LVar.scalarIn v)
  else if pyStrEq tv "image" then do
    let v ← imageInputRecordM env record
    pure (entry.1, LVar.imageIn v)
  else throw Err.exit

/-- One entry of the `output_variables` section (identical in
`variables_from_yaml` and `model_from_yaml`): scalar records are passed to
the constructor as they are; image records only get `axis_labels`
synthesized — their `default` is *not* loaded. -/
def outputEntry (entry : String × PyVal) : Except Err (String × LVar) := do
  let record ←
    match entry.2 with
    | .dict r => pure r
    | _ => throw Err.uncaught
  let tv ← requireKey record "type"
  if pyStrEq tv "scalar" then do
    let v ← liftV (ScalarOutputVariable.construct record)
    pure (entry.1, LVar.scalarOut v)
  else if pyStrEq tv "image" then do
    let xl ← requireKey record "x_label"
    let yl ← requireKey record "y_label"
    let record := setKey record "axis_labels" (.list [xl, yl])
    let v ← liftV (ImageOutputVariable.construct record)
    pure (entry.1, LVar.imageOut v)
  else throw Err.exit

def variables_from_yaml (env : Env) (config_file : PyVal) :
    Except Err (VarDict × VarDict) := do
  let config ←
    match config_file with
    | .dict c => pure c
    | _ => throw Err.exit
  let input_variables ←
    match getKey config "input_variables" with
    | some (.dict entries) => entries.mapM (inputEntryV env)
    | some _ => throw Err.uncaught
    | Option.none => throw Err.exit
  -- The source has no `else: sys.exit()` on this section — unlike the input
  -- section above and unlike model_from_yaml — so a missing
  -- "output_variables" section falls through with an empty mapping.
  let output_variables ←
    match getKey config "output_variables" with
    | some (.dict entries) => entries.mapM outputEntry
    | some _ => throw Err.uncaught
    | Option.none => pure []
  return (input_variables, output_variables)

/-- The `requirements` loop of `model_from_yaml`: each requirement is
imported (an import failure raises); when its declared value is a dict the
module's `version` attribute is compared against that dict and a mismatch is
`sys.exit()`; otherwise only a warning is logged. -/
def checkRequirements (env : Env) (reqs : List (String × PyVal)) :
    Except Err Unit :=
  reqs.forM fun p => do
    let module ←
      match env.importModule p.1 with
      | some m => pure m
      | Option.none => throw Err.uncaught
    -- `if module:` — a module object is always truthy, so the source's
    -- "Module not installed" warning branch is unreachable.
    match p.2 with
    | .dict d => do
      let mv ←
        match module.version with
        | some v => pure v
        | Option.none => throw Err.uncaught
      if pyBeq mv (.dict d) then pure () else throw Err.exit
    | _ => pure ()  -- no version provided: warning only, processing continues

def model_from_yaml (env : Env) (config_file : PyVal) (model_class : Option ClassRef)
    ( _model_kwargs : Option PyVal) (load_model : Bool) : Except Err MResult := do
  let config ←
    match config_file with
    | .dict c => pure c
    | _ => throw Err.exit
  let input_variables ←
    match getKey config "input_variables" with
    | some (.dict entries) => entries.mapM (inputEntryM env)
    | some _ => throw Err.uncaught
    | Option.none => throw Err.exit
  let output_variables ←
    match getKey config "output_variables" with
    | some (.dict entries) => entries.mapM outputEntry
    | some _ => throw Err.uncaught
    | Option.none => throw Err.exit
  -- conflicting class definitions between config file and function argument
  if model_class.isSome && (getKey config "model").isSome then
    throw Err.exit
  let model_kwargs : ModelKwargs :=
    [("input_variables", KwVal.vars input_variables),
     ("output_variables", KwVal.vars output_variables)]
  let state ←
    match getKey config "model" with
    | Option.none => pure (model_class, model_kwargs)
    | some mv => do
      let msec ←
        match mv with
        | .dict m => pure m
        | _ => throw Err.uncaught
      match getKey msec "requirements" with
      | Option.none => pure ()
      | some rv => do
        let reqs ←
          match rv with
          | .dict r => pure r
          | _ => throw Err.uncaught
        checkRequirements env reqs
      let mcPath ← requireKey msec "model_class"
      let mcStr ←
        match mcPath with
        | .str s => pure s
        | _ => throw Err.uncaught
      let cls ←
        match env.locate mcStr with
        | some c => pure c
        | Option.none => throw Err.uncaught
      let model_kwargs ←
        match getKey msec "kwargs" with
        | Option.none => pure model_kwargs
        | some kv => do
          let kwargs ←
            match kv with
            | .dict k => pure k
            | _ => throw Err.uncaught
          let pair ←
            match getKey kwargs "custom_layers" with
            | Option.none => pure (kwargs, model_kwargs)
            | some clv => do
              let layers ←
                match clv with
                | .dict l => pure l
                | _ => throw Err.uncaught
              let kwargs := delKey kwargs "custom_layers"
              let resolved ← layers.mapM (fun q => do
                let pathStr ←
                  match q.2 with
                  | .str s => pure s
                  | _ => throw Err.uncaught
                match env.locate pathStr with
                | some c => pure (q.1, c)
                -- locate raises rather than returning None, so the source's
                -- else-exit for an unresolved layer class is unreachable
                | Option.none => throw Err.uncaught)
              pure (kwargs, setKw model_kwargs "custom_layers" (KwVal.layers resolved))
          pure (pair.1.foldl (fun acc q => setKw acc q.1 (KwVal.py q.2)) pair.2)
      pure (some cls, model_kwargs)
  let cls ←
    match state.1 with
    | some c => pure c
    | Option.none => throw Err.exit
  if load_model then
    if env.constructOk cls state.2 then
      return MResult.model { cls := cls, kwargs := state.2 }
    else
      throw Err.exit
  else
    return MResult.deferred cls state.2

/-!
## Concrete instances used by witnesses and counterexamples
-/

/-- `ScalarInputVariable(name="input1", default=1, range=[0.0, 5.0])`. -/
def exIn1 : ScalarInputVariable :=
  { name := "input1", default := 1, value_range := [.num 0, .num 5] }

/-- `ScalarOutputVariable(name="output1")`. -/
def exOut1 : ScalarOutputVariable := { name := "output1" }

/-- An input mapping whose single variable is named `"x"` under key `"k1"`. -/
def dupI : VarDict :=
  [("k1", .scalarIn { name := "x", default := 1, value_range := [.num 0, .num 5] })]

/-- An output mapping whose single variable is also named `"x"`, under the
distinct key `"k2"`. -/
def dupO : VarDict := [("k2", .scalarOut { name := "x" })]

/-- Renaming of the mapping keys, leaving the stored variables untouched. -/
def rekey (f : String → String) (d : VarDict) : VarDict :=
  d.map (fun p => (f p.1, p.2))

/-- Whether a loader run ended in one of the fatal outcomes (a `sys.exit()`
or an uncaught exception): no (partial) result is returned. -/
def isFatal : Except Err α → Bool
  | .error _ => true
  | .ok _ => false

/-- An environment in which no external resource resolves: no array files,
no importable modules, no locatable classes. -/
def env0 : Env :=
  { npLoad := fun _ => Option.none,
    importModule := fun _ => Option.none,
    locate := fun _ => Option.none,
    constructOk := fun _ _ => false }

/-- A concrete 2×2 array. -/
def arr22 : NpArr := { shape := [2, 2], data := [1, 2, 3, 4] }

/-- A concrete 1-D array of four entries. -/
def arr14 : NpArr := { shape := [4], data := [1, 2, 3, 4] }

/-- An environment in which the array file `"default.npy"` loads to
`arr22`. -/
def envArr : Env :=
  { npLoad := fun p => if p = "default.npy" then some arr22 else Option.none,
    importModule := fun _ => Option.none,
    locate := fun _ => Option.none,
    constructOk := fun _ _ => false }

/-- The spec's example document, verbatim:
`{input_variables: {x: {type: scalar, default: 1, range: [0,5]}},
output_variables: {y: {type: scalar}}}`. -/
def cfgSpecExample : PyVal := .dict
  [("input_variables", .dict
      [("x", .dict [("type", .str "scalar"), ("default", .num 1),
                    ("range", .list [.num 0, .num 5])])]),
   ("output_variables", .dict
      [("y", .dict [("type", .str "scalar")])])]

/-- The spec's example document with the required `name` field added to each
record. -/
def cfgSpecExampleNamed : PyVal := .dict
  [("input_variables", .dict
      [("x", .dict [("name", .str "x"), ("type", .str "scalar"), ("default", .num 1),
                    ("range", .list [.num 0, .num 5])])]),
   ("output_variables", .dict
      [("y", .dict [("name", .str "y"), ("type", .str "scalar")])])]

/-- A configuration record of type `"image"` whose `default` is the path of
an external array file. -/
def imageRecord (nm path xl yl : String) (shapeVal rangeVal : List PyVal) :
    List (String × PyVal) :=
  [("name", .str nm), ("type", .str "image"), ("default", .str path),
   ("range", .list rangeVal), ("shape", .list shapeVal),
   ("x_label", .str xl), ("y_label", .str yl)]

/-- A document whose only variable is the given record, in the input
section. -/
def cfgWithInputRecord (r : List (String × PyVal)) : PyVal :=
  .dict [("input_variables", .dict [("img", .dict r)]),
         ("output_variables", .dict [])]

/-- A document whose only variable is the given record, in the output
section. -/
def cfgWithOutputRecord (r : List (String × PyVal)) : PyVal :=
  .dict [("input_variables", .dict []),
         ("output_variables", .dict [("img", .dict r)])]

/-- An image record flagged `is_constant`. -/
def imageConstRecord (nm path xl yl : String) (shapeVal rangeVal : List PyVal) :
    List (String × PyVal) :=
  imageRecord nm path xl yl shapeVal rangeVal ++ [("is_constant", .bool true)]

/-- A scalar record flagged `is_constant` with an explicit `range`. -/
def scalarConstRecord (nm : String) (d : Rat) (rangeVal : List PyVal) :
    List (String × PyVal) :=
  [("name", .str nm), ("type", .str "scalar"), ("default", .num d),
   ("range", .list rangeVal), ("is_constant", .bool true)]

/-- A document whose input section misses nothing but whose
`output_variables` section is absent. -/
def cfgNoOutputs : PyVal := .dict
  [("input_variables", .dict
      [("x", .dict [("name", .str "x"), ("type", .str "scalar"),
                    ("default", .num 1), ("range", .list [.num 0, .num 5])])])]

/-- Direct keyword arguments for an image input variable carrying both a
`value` and a `default` array, and an arbitrary `shape` field. -/
def imageKwargs (nm : String) (v a : NpArr) (shapeVal rangeVal : List PyVal) :
    List (String × PyVal) :=
  [("name", .str nm), ("value", .arr v), ("default", .arr a),
   ("shape", .list shapeVal), ("range", .list rangeVal),
   ("axis_labels", .list [.str "x", .str "y"])]

/-- Keyword arguments for a scalar input variable that also pass the scalar
trait fields `units` and `parent_variable`. -/
def scalarTraitKwargs : List (String × PyVal) :=
  [("name", .str "test"), ("default", .num 1), ("range", .list [.num 1, .num 2]),
   ("units", .str "mm"), ("parent_variable", .str "parent")]

/-- The variable `scalarTraitKwargs` constructs. -/
def scalarTraitVar : ScalarInputVariable :=
  { name := "test", default := 1, value_range := [.num 1, .num 2] }

/-- A document containing a `model` section alongside well-formed variable
sections. -/
def cfgWithModel : List (String × PyVal) :=
  [("input_variables", .dict
      [("x", .dict [("name", .str "x"), ("type", .str "scalar"),
                    ("default", .num 1), ("range", .list [.num 0, .num 5])])]),
   ("output_variables", .dict
      [("y", .dict [("name", .str "y"), ("type", .str "scalar")])]),
   ("model", .dict [("model_class", .str "examples.model.MyModel")])]

/-- The duplicate scan of `save_variables` reports nothing exactly when the
name list has no duplicates. -/
theorem dupScan_eq_false_iff_nodup (l : List String) :
    (l.dedup.any (fun v => 1 < l.count v)) = false ↔ l.Nodup := by
  rw [List.nodup_iff_count_le_one]
  constructor
  · intro h a
    by_cases ha : a ∈ l
    · have hmem : a ∈ l.dedup := List.mem_dedup.mpr ha
      have h2 := List.any_eq_false.mp h a hmem
      simp only [decide_eq_true_eq, not_lt] at h2
      exact h2
    · simp [List.count_eq_zero.mpr ha]
  · intro h
    apply List.any_eq_false.mpr
    intro a _
    simp only [decide_eq_true_eq, not_lt]
    exact h a

/-- `save_variables` succeeds exactly when its duplicate scan is silent. -/
theorem save_isOk_eq (I O : VarDict) :
    (save_variables I O).isOk =
      !((varNames I O).dedup.any (fun v => 1 < (varNames I O).count v)) := by
  simp only [save_variables, varNames]
  split
  next h => rw [h]; rfl
  next h => rw [Bool.not_eq_true] at h; rw [h]; rfl

/-- `save_variables` succeeds exactly when the collected `.name` attributes
are pairwise distinct. -/
theorem save_isOk_iff (I O : VarDict) :
    (save_variables I O).isOk = true ↔ (varNames I O).Nodup := by
  rw [save_isOk_eq, Bool.not_eq_true', dupScan_eq_false_iff_nodup]

/-- Rekeying the mappings does not change the collected name list. -/
theorem varNames_rekey (I O : VarDict) (f g : String → String) :
    varNames (rekey f I) (rekey g O) = varNames I O := by
  unfold varNames rekey
  rw [List.map_map, List.map_map]
  rfl

/-- C1: saving mappings whose variable names are pairwise distinct across
the union produces the blob holding both mappings unchanged, and loading
that blob returns the pair `(I, O)` field-for-field (structurally) equal to
the saved mappings, with identical concrete variable types. -/
theorem save_then_load_roundtrip (I O : VarDict) (h : (varNames I O).Nodup) :
    save_variables I O = Except.ok { input_variables := I, output_variables := O } ∧
    load_variables { input_variables := I, output_variables := O } = (I, O) := by
  refine ⟨?_, rfl⟩
  have hc : ((varNames I O).dedup.any (fun v => 1 < (varNames I O).count v)) = false :=
    (dupScan_eq_false_iff_nodup _).mpr h
  unfold varNames at hc
  simp only [save_variables]
  rw [hc]
  rfl

/-- C1 witness: the round-trip at a concrete valid pair. -/
theorem save_then_load_roundtrip_witness :
    (varNames [("input1", .scalarIn exIn1)] [("output1", .scalarOut exOut1)]).Nodup ∧
    (save_variables [("input1", .scalarIn exIn1)] [("output1", .scalarOut exOut1)] =
        Except.ok { input_variables := [("input1", .scalarIn exIn1)],
                    output_variables := [("output1", .scalarOut exOut1)] } ∧
      load_variables { input_variables := [("input1", .scalarIn exIn1)],
                       output_variables := [("output1", .scalarOut exOut1)] } =
        ([("input1", .scalarIn exIn1)], [("output1", .scalarOut exOut1)])) :=
  ⟨by decide, save_then_load_roundtrip _ _ (by decide)⟩

/-- C2 counterexample: on mappings sharing the duplicated name `"x"`,
`save_variables` does fail before writing, but the raised error is a bare
`ValueError` naming no duplicated key at all — in particular not `"x"` —
contradicting the claim that every duplicated key is named. -/
theorem save_duplicate_counterexample :
    save_variables dupI dupO = Except.error { namedKeys := [] } ∧
    "x" ∉ reportedKeys (save_variables dupI dupO) :=
  ⟨rfl, by decide⟩

/-- C2 (amended): whenever an input variable and an output variable share a
name, `save_variables` raises before the destination file is opened (so
nothing is written, and no blob is produced), but the error is a bare
`ValueError` carrying no key names; only the first duplicate found is
logged. -/
theorem save_shared_name_fails_bare (I O : VarDict)
    (h : ∃ n, n ∈ I.map (fun p => (p.2).name) ∧ n ∈ O.map (fun p => (p.2).name)) :
    save_variables I O = Except.error { namedKeys := [] } := by
  obtain ⟨n, hI, hO⟩ := h
  have hcount : 1 < (varNames I O).count n := by
    unfold varNames
    rw [List.count_append]
    have h1 : 0 < List.count n (I.map (fun p => (p.2).name)) := List.count_pos_iff.mpr hI
    have h2 : 0 < List.count n (O.map (fun p => (p.2).name)) := List.count_pos_iff.mpr hO
    omega
  have hmem : n ∈ (varNames I O).dedup :=
    List.mem_dedup.mpr (by unfold varNames; exact List.mem_append_left _ hI)
  have ht : ((varNames I O).dedup.any (fun v => 1 < (varNames I O).count v)) = true :=
    List.any_eq_true.mpr ⟨n, hmem, by simpa using hcount⟩
  unfold varNames at ht
  simp only [save_variables]
  rw [ht]
  rfl

/-- C2 witness: the amended behaviour at a concrete duplicated pair. -/
theorem save_shared_name_fails_bare_witness :
    (∃ n, n ∈ dupI.map (fun p => (p.2).name) ∧ n ∈ dupO.map (fun p => (p.2).name)) ∧
    save_variables dupI dupO = Except.error { namedKeys := [] } :=
  ⟨⟨"x", by decide, by decide⟩,
    save_shared_name_fails_bare dupI dupO ⟨"x", by decide, by decide⟩⟩

/-- C3 counterexample: on the spec's example document — whose records carry
no `name` field — `variables_from_yaml` does not succeed: the required
`name` field is missing and a `ValidationError` propagates, so the claimed
pair is never returned. -/
theorem spec_example_document_fails :
    variables_from_yaml env0 cfgSpecExample =
      Except.error (.validation (.missing "name")) := rfl

/-- C3 (amended): with the required `name` field added to each record, the
document `{input_variables: {x: {name: x, type: scalar, default: 1,
range: [0,5]}}, output_variables: {y: {name: y, type: scalar}}}` makes
`variables_from_yaml` succeed with
`({x: ScalarInputVariable(default=1, range=[0,5])},
{y: ScalarOutputVariable()})`. -/
theorem spec_example_with_names_succeeds :
    variables_from_yaml env0 cfgSpecExampleNamed =
      Except.ok
        ([("x", .scalarIn { name := "x", default := 1,
                            value_range := [.num 0, .num 5] })],
         [("y", .scalarOut { name := "y" })]) := rfl

/-- C4 counterexample: for an *output* image record, the `default` path is
never loaded: even in an environment where `"default.npy"` resolves to a
valid 2-D array, the loader fails because the un-replaced path string
reaches image validation — and the outcome is identical in an environment
with no array files at all, showing `np.load` is never consulted. -/
theorem output_image_default_not_loaded :
    variables_from_yaml envArr (cfgWithOutputRecord
        (imageRecord "img" "default.npy" "xl" "yl" [.num 2, .num 2] [.num 0, .num 5])) =
      Except.error (.validation (.wrongType "default")) ∧
    variables_from_yaml env0 (cfgWithOutputRecord
        (imageRecord "img" "default.npy" "xl" "yl" [.num 2, .num 2] [.num 0, .num 5])) =
      variables_from_yaml envArr (cfgWithOutputRecord
        (imageRecord "img" "default.npy" "xl" "yl" [.num 2, .num 2] [.num 0, .num 5])) :=
  ⟨rfl, rfl⟩

/-- C4 (amended): only for *input* image records does `variables_from_yaml`
load the `default` path eagerly, replace it with the materialized array and
synthesize `axis_labels := [x_label, y_label]` before construction; for
output image records only `axis_labels` is synthesized and the `default`
path string is passed through unchanged, so it fails image validation. -/
theorem image_default_loaded_for_inputs_only (env : Env) (nm path xl yl : String)
    (shapeVal rangeVal : List PyVal) (a : NpArr)
    (hload : env.npLoad path = some a) (hdim : a.ndim = 2) :
    variables_from_yaml env (cfgWithInputRecord (imageRecord nm path xl yl shapeVal rangeVal)) =
      Except.ok ([("img", .imageIn { name := nm, default := a, value_range := rangeVal,
                                     axis_labels := [xl, yl], shape := shapeVal })], []) ∧
    variables_from_yaml env (cfgWithOutputRecord (imageRecord nm path xl yl shapeVal rangeVal)) =
      Except.error (.validation (.wrongType "default")) := by
  refine ⟨?_, rfl⟩
  simp [variables_from_yaml, cfgWithInputRecord, imageRecord, inputEntryV,
    imageInputRecordV, requireKey, getKey, setKey, liftV, pyStrEq,
    ImageInputVariable.construct, reqField, optField, popField, precisionField,
    varTypeField, vStr, vImage, vFloat, vList, vStrList, vTuple,
    List.mapM.loop, bind, Except.bind, pure, Except.pure, Functor.map, Except.map,
    hload, hdim]

/-- C4 witness: the amended behaviour at a concrete record and
environment. -/
theorem image_default_loaded_for_inputs_only_witness :
    (envArr.npLoad "default.npy" = some arr22 ∧ arr22.ndim = 2) ∧
    (variables_from_yaml envArr (cfgWithInputRecord
        (imageRecord "img" "default.npy" "xl" "yl" [.num 2, .num 2] [.num 0, .num 5])) =
      Except.ok ([("img", .imageIn { name := "img", default := arr22,
                                     value_range := [.num 0, .num 5],
                                     axis_labels := ["xl", "yl"],
                                     shape := [.num 2, .num 2] })], []) ∧
     variables_from_yaml envArr (cfgWithOutputRecord
        (imageRecord "img" "default.npy" "xl" "yl" [.num 2, .num 2] [.num 0, .num 5])) =
      Except.error (.validation (.wrongType "default"))) :=
  ⟨⟨rfl, rfl⟩,
    image_default_loaded_for_inputs_only envArr "img" "default.npy" "xl" "yl"
      [.num 2, .num 2] [.num 0, .num 5] arr22 rfl rfl⟩

/-- C5 counterexample: an *output* scalar record with `is_constant: true`,
`default: 2` and `range: [0, 5]` is constructed with its range `[0, 5]`
unchanged — not `[default, default] = [2, 2]` (the second conjunct records
that `0 ≠ 2`), because the `is_constant` flag is only handled in the
input-variables branch. -/
theorem is_constant_ignored_for_outputs :
    variables_from_yaml env0 (cfgWithOutputRecord (scalarConstRecord "y" 2 [.num 0, .num 5])) =
      Except.ok ([], [("img", .scalarOut { name := "y", default := some 2,
                                           value_range := some [.num 0, .num 5] })]) ∧
    PyVal.num 0 ≠ PyVal.num 2 :=
  ⟨rfl, by intro h; injection h with h'; exact absurd h' (by norm_num)⟩

/-- C5 (amended): for *input* records processed by `variables_from_yaml`,
the `is_constant` flag collapses `value_range` to `[default, default]`
(scalar type) or `[amin(default), amax(default)]` of the loaded array
(image type); on output records the flag has no effect and the given range
is kept. -/
theorem is_constant_collapses_input_ranges_only (env : Env) (nm path xl yl : String)
    (d lo hi : Rat) (shapeVal rangeVal : List PyVal) (a : NpArr)
    (hload : env.npLoad path = some a) (hdim : a.ndim = 2)
    (hmin : a.amin = some lo) (hmax : a.amax = some hi) :
    variables_from_yaml env (cfgWithInputRecord (scalarConstRecord nm d rangeVal)) =
      Except.ok ([("img", .scalarIn { name := nm, default := d,
                                      value_range := [.num d, .num d] })], []) ∧
    variables_from_yaml env (cfgWithInputRecord (imageConstRecord nm path xl yl shapeVal rangeVal)) =
      Except.ok ([("img", .imageIn { name := nm, default := a,
                                     value_range := [.num lo, .num hi],
                                     axis_labels := [xl, yl], shape := shapeVal })], []) ∧
    variables_from_yaml env (cfgWithOutputRecord (scalarConstRecord nm d rangeVal)) =
      Except.ok ([], [("img", .scalarOut { name := nm, default := some d,
                                           value_range := some rangeVal })]) := by
  refine ⟨rfl, ?_, rfl⟩
  simp [variables_from_yaml, cfgWithInputRecord, imageConstRecord, imageRecord,
    inputEntryV, imageInputRecordV, requireKey, getKey, setKey, liftV, pyStrEq,
    pyTruthy, ImageInputVariable.construct, reqField, optField, popField,
    precisionField, varTypeField, vStr, vImage, vFloat, vList, vStrList, vTuple,
    List.mapM.loop, bind, Except.bind, pure, Except.pure, Functor.map, Except.map,
    hload, hdim, hmin, hmax]

/-- C5 witness: the amended behaviour at concrete records: the constant
scalar input's range collapses to `[2, 2]`, the constant image input's to
`[1, 4]` (the extrema of `arr22`), while the constant scalar output keeps
`[0, 5]`. -/
theorem is_constant_collapses_input_ranges_only_witness :
    (envArr.npLoad "default.npy" = some arr22 ∧ arr22.ndim = 2 ∧
     arr22.amin = some 1 ∧ arr22.amax = some 4) ∧
    (variables_from_yaml envArr (cfgWithInputRecord (scalarConstRecord "c" 2 [.num 0, .num 5])) =
      Except.ok ([("img", .scalarIn { name := "c", default := 2,
                                      value_range := [.num 2, .num 2] })], []) ∧
     variables_from_yaml envArr (cfgWithInputRecord
        (imageConstRecord "c" "default.npy" "xl" "yl" [.num 2, .num 2] [.num 0, .num 5])) =
      Except.ok ([("img", .imageIn { name := "c", default := arr22,
                                     value_range := [.num 1, .num 4],
                                     axis_labels := ["xl", "yl"],
                                     shape := [.num 2, .num 2] })], []) ∧
     variables_from_yaml envArr (cfgWithOutputRecord (scalarConstRecord "c" 2 [.num 0, .num 5])) =
      Except.ok ([], [("img", .scalarOut { name := "c", default := some 2,
                                           value_range := some [.num 0, .num 5] })])) :=
  ⟨⟨rfl, rfl, rfl, rfl⟩,
    is_constant_collapses_input_ranges_only envArr "c" "default.npy" "xl" "yl"
      2 1 4 [.num 2, .num 2] [.num 0, .num 5] arr22 rfl rfl rfl rfl⟩

/-- C6: a document with a well-formed `input_variables` section but *no*
`output_variables` section is not fatal for `variables_from_yaml` — it
returns the partial result `(inputs, {})`, because the source lacks the
`else: sys.exit()` that its own input section and `model_from_yaml`'s
output section both have — while `model_from_yaml` on the same document
exits as the claim describes. -/
theorem missing_output_section_not_fatal :
    variables_from_yaml env0 cfgNoOutputs =
      Except.ok ([("x", .scalarIn { name := "x", default := 1,
                                    value_range := [.num 0, .num 5] })], []) ∧
    model_from_yaml env0 cfgNoOutputs Option.none Option.none true =
      Except.error Err.exit :=
  ⟨rfl, rfl⟩

/-- C7 counterexample: a 2-dimensional array together with a `shape` field
`(3, 3)` that its actual shape `[2, 2]` does not match is accepted: the
construction succeeds, storing the mismatched `shape` as given, instead of
failing with a `ValidationError` as claimed. -/
theorem shape_mismatch_accepted :
    ImageInputVariable.construct
        (imageKwargs "img" arr22 arr22 [.num 3, .num 3] [.num 0, .num 5]) =
      Except.ok { name := "img", value := some arr22, default := arr22,
                  value_range := [.num 0, .num 5], axis_labels := ["x", "y"],
                  shape := [.num 3, .num 3] } ∧
    arr22.shape ≠ [3, 3] :=
  ⟨rfl, by decide⟩

/-- C7 (amended): image construction checks only that the supplied `value`
and `default` arrays are exactly 2-dimensional; the `shape` field is stored
but never compared against the arrays. -/
theorem image_dim_checked_shape_not (nm : String) (v a : NpArr)
    (shapeVal rangeVal : List PyVal) :
    ImageInputVariable.construct (imageKwargs nm v a shapeVal rangeVal) =
      (if v.ndim = 2 then
        if a.ndim = 2 then
          Except.ok { name := nm, value := some v, default := a,
                      value_range := rangeVal, axis_labels := ["x", "y"],
                      shape := shapeVal }
        else Except.error (.wrongType "default")
      else Except.error (.wrongType "value")) := by
  by_cases hv : v.ndim = 2 <;> by_cases ha : a.ndim = 2 <;>
    simp [ImageInputVariable.construct, imageKwargs, reqField, optField, popField,
      getKey, precisionField, varTypeField, vStr, vImage, vFloat, vList, vStrList,
      vTuple, List.mapM, List.mapM.loop, bind, Except.bind, pure, Except.pure,
      Functor.map, Except.map, hv, ha]

/-- C8: a successfully constructed scalar variable's serialized dictionary
view holds only the five pydantic-declared fields; the scalar trait fields
`units`, `parent_variable` and `variable_type` are absent (and the `units`
and `parent_variable` keyword arguments were silently dropped), because
`ScalarVariable` does not inherit the pydantic base class — unlike
`ImageVariable` — so its attributes are not declared fields. -/
theorem scalar_dict_view_lacks_trait_fields :
    ScalarInputVariable.construct scalarTraitKwargs = Except.ok scalarTraitVar ∧
    scalarTraitVar.dictView.map Prod.fst =
      ["name", "value", "precision", "default", "value_range"] ∧
    "units" ∉ scalarTraitVar.dictView.map Prod.fst ∧
    "variable_type" ∉ scalarTraitVar.dictView.map Prod.fst ∧
    "parent_variable" ∉ scalarTraitVar.dictView.map Prod.fst :=
  ⟨rfl, rfl, by decide, by decide, by decide⟩

/-- Sequencing preserves fatality: a `bind` whose continuation is always
fatal is fatal. -/
theorem bind_isFatal (x : Except Err α) (f : α → Except Err β)
    (h : ∀ v, isFatal (f v) = true) : isFatal (x >>= f) = true := by
  cases x with
  | error e => rfl
  | ok v => exact h v

/-- C9: whenever the configuration document contains a `model` section and
`model_from_yaml` is also given a non-`None` `model_class` argument, the
call is fatal — regardless of `load_model` (and of every other detail of
the document and environment): no model instance and no
`(class, kwargs)` pair is returned. -/
theorem model_section_conflicts_with_argument (env : Env)
    (c : List (String × PyVal)) (mc : ClassRef) (mk0 : Option PyVal) (lm : Bool)
    (hm : (getKey c "model").isSome = true) :
    isFatal (model_from_yaml env (.dict c) (some mc) mk0 lm) = true := by
  simp only [model_from_yaml]
  rw [pure_bind]
  cases hin : getKey c "input_variables" with
  | none => rfl
  | some v =>
    cases v with
    | none => rfl
    | bool b => rfl
    | num q => rfl
    | str s => rfl
    | list l => rfl
    | arr a2 => rfl
    | dict entries =>
      apply bind_isFatal
      intro input_variables
      cases hout : getKey c "output_variables" with
      | none => rfl
      | some w =>
        cases w with
        | none => rfl
        | bool b => rfl
        | num q => rfl
        | str s => rfl
        | list l => rfl
        | arr a2 => rfl
        | dict entries2 =>
          apply bind_isFatal
          intro output_variables
          simp [hm, isFatal, bind, Except.bind, throw, throwThe, MonadExceptOf.throw]

/-- C9 witness: the conflict at a concrete document and argument. -/
theorem model_section_conflicts_with_argument_witness :
    (getKey cfgWithModel "model").isSome = true ∧
    isFatal (model_from_yaml env0 (.dict cfgWithModel)
        (some { path := "arg.Model" }) Option.none true) = true :=
  ⟨rfl, model_section_conflicts_with_argument env0 cfgWithModel
    { path := "arg.Model" } Option.none true rfl⟩

/-- C10: `save_variables` judges uniqueness on the variables' own `name`
attributes — it succeeds exactly when those are pairwise distinct — and the
mapping keys never participate: renaming all keys arbitrarily cannot change
whether the save succeeds. -/
theorem save_uniqueness_from_name_attributes (I O : VarDict) (f g : String → String) :
    ((save_variables I O).isOk = true ↔ (varNames I O).Nodup) ∧
    (save_variables (rekey f I) (rekey g O)).isOk = (save_variables I O).isOk := by
  refine ⟨save_isOk_iff I O, ?_⟩
  rw [save_isOk_eq, save_isOk_eq, varNames_rekey]

end LumeModel
